import Mathlib

/-!
# Verification of the CyberAI-Inspector trust-scoring engine

Shallow embedding of the three analyzer entry points of the repository
(`backend/analyzers/text_analyzer.py`, `url_analyzer.py`, `image_analyzer.py`)
together with the pure helper `estimate_jpeg_quality`.

Modelling conventions:
* Python `int` scores are `Int`; Python `float` heuristic values (sentiment
  polarity, readability ratios, similarity scores, ...) are `Rat` — every use
  in the analyzers is a threshold comparison, which rationals model exactly.
* Byte strings are `List Nat` (one natural per byte).
* Outcomes of the ML-model / network-backed sub-analyses (the values the
  Python code reads out of the dictionaries returned by the gathered
  coroutines and the optional Azure collaborators) are fields of explicit
  environment records; `none` models "the sub-analysis raised or returned an
  error dictionary", which the analyzers skip via
  `isinstance(x, dict) and not x.get("error")` guards.
* All purely lexical computations (pattern matching against the curated
  phrase lists, the regex-based false-claim detector, the fact table, URL
  parsing and domain checks, JPEG quantization-table scanning) are embedded
  directly from the source as executable functions on characters/bytes.
-/

/-! ## Generic character/list helpers -/

/-- Test that the list `p` is an initial run of `l`
(model of Python `str.startswith` restricted to what we need). -/
def leadsList : List Char → List Char → Bool
  | [], _ => true
  | _ :: _, [] => false
  | a :: as, b :: bs => a == b && leadsList as bs

/-- Test that `p` occurs contiguously inside `l`
(model of the Python substring test `p in l`). -/
def hasRun (p : List Char) : List Char → Bool
  | [] => leadsList p []
  | c :: rest => leadsList p (c :: rest) || hasRun p rest

/-- Test that `l` ends with `p` (model of Python `str.endswith`). -/
def endsL (p l : List Char) : Bool :=
  leadsList p.reverse l.reverse

/-- ASCII lower-casing of one character (model of the `str.lower()` calls;
the analyzer tables are ASCII). -/
def lowerChar (c : Char) : Char := c.toLower

/-- Model of `s.lower()` as a character list. -/
def toLowerL (s : String) : List Char := s.toList.map lowerChar

/-- Model of `s.strip()`: drop leading and trailing whitespace. -/
def trimL (l : List Char) : List Char :=
  ((l.dropWhile Char.isWhitespace).reverse.dropWhile Char.isWhitespace).reverse

/-- Substring test on strings, case-insensitive on the haystack
(model of `pattern in text.lower()` / `re.search(literal, text, IGNORECASE)`
for the curated phrase lists, whose entries are lower-case literals). -/
def containsCI (text pat : String) : Bool :=
  hasRun pat.toList (toLowerL text)

/-- The clamp `max(0, min(100, trust))` applied by every analyzer at the
final-score line (text_analyzer.py:666, url_analyzer.py:494,
image_analyzer.py:218). -/
def clamp100 (x : Int) : Int :=
  max 0 (min 100 x)

theorem clamp100_range (x : Int) : 0 ≤ clamp100 x ∧ clamp100 x ≤ 100 := by
  unfold clamp100
  constructor
  · exact le_max_left 0 _
  · rcases le_total 100 x with h | h <;> simp [min_def, max_def] <;> split <;> omega

/-- ASCII apostrophe, kept out of string literals. -/
def apoc : Char := Char.ofNat 39

def apos : String := String.singleton apoc

/-! ## Text analyzer: lexical tables (text_analyzer.py:524-578) -/

/-- Table `misinformation_patterns` (text_analyzer.py:542-547).  Each regex in the
source is a literal string, so `re.search(p, text, IGNORECASE)` is exactly a
case-insensitive substring test. -/
def misinformationPhrases : List String :=
  ["100% proven", "doctors hate this",
   "scientists don" ++ apos ++ "t want you to know",
   "big pharma", "the truth they hide", "wake up sheeple",
   "mainstream media lies",
   "they don" ++ apos ++ "t want you to know",
   "exposed!", "shocking truth"]

/-- Count `misinformation_count` (text_analyzer.py:549-550). -/
def misinfoCount (text : String) : Nat :=
  misinformationPhrases.countP (fun p => containsCI text p)

/-- Table `geographical_facts` (text_analyzer.py:557-571), in source order. -/
def factTable : List (String × Int) :=
  [("patna is capital of bihar", 95),
   ("delhi is capital of india", 95),
   ("mumbai is capital of maharashtra", 95),
   ("kolkata is capital of west bengal", 95),
   ("chennai is capital of tamil nadu", 95),
   ("bangalore is capital of karnataka", 95),
   ("hyderabad is capital of telangana", 95),
   ("washington is capital of usa", 95),
   ("london is capital of england", 95),
   ("paris is capital of france", 95),
   ("earth is round", 98),
   ("vaccines are safe", 95),
   ("climate change is real", 97)]

/-- A `\w` character of the normalisation regex (ASCII model) or whitespace,
the characters kept by the normalisation regex substitution. -/
def keptByNorm (c : Char) : Bool :=
  c.isAlphanum || c == '_' || c.isWhitespace

/-- Normalisation `text_normalized`: lower-case, strip, drop non-word non-space
characters (text_analyzer.py:573). -/
def normalizeText (text : String) : List Char :=
  (trimL (toLowerL text)).filter keptByNorm

/-- The fact-table scan (text_analyzer.py:574-578): first entry `fact` with
`text_normalized in fact or fact in text_normalized`, returning its score. -/
def factLookup (norm : List Char) : Option Int :=
  (factTable.find? (fun p => hasRun norm p.1.toList || hasRun p.1.toList norm)).map (·.2)

/-! ## Text analyzer: the false-claim regexes (text_analyzer.py:524-535)

The seven `false_claim_patterns` use only literals, `\b`, `\w+` and literal
alternation groups, so they are embedded with a tiny matcher over those three
constructs.  `re.search(p, text, IGNORECASE)` = "a match exists at some
position", which is what `reSearch` decides (existence is insensitive to
greediness). -/

inductive RTok where
  | lit (s : String)
  | word
  | alts (l : List String)
  deriving Repr

/-- A word character for `\b` and `\w` (ASCII model of the source regexes,
whose inputs here are matched case-insensitively on lowered text). -/
def isWordCh (c : Char) : Bool :=
  c.isAlphanum || c == '_'

/-- Match a token list at the head of `cs` (after the optional leading `\b`
has been checked by the caller). -/
def matchToks : List RTok → List Char → Bool
  | [], _ => true
  | .lit s :: ts, cs =>
      leadsList s.toList cs && matchToks ts (cs.drop s.toList.length)
  | .word :: ts, cs =>
      (List.range cs.length).any fun k =>
        ((cs.take (k + 1)).all isWordCh) && matchToks ts (cs.drop (k + 1))
  | .alts l :: ts, cs =>
      l.any fun s => leadsList s.toList cs && matchToks ts (cs.drop s.toList.length)

/-- A regex pattern: optional leading `\b`, then tokens. -/
structure RPat where
  boundaryFirst : Bool
  toks : List RTok

/-- Boundary `\b` between the previous character and the head of `cs`. -/
def boundaryHolds (prev : Option Char) (cs : List Char) : Bool :=
  (match prev with | none => false | some c => isWordCh c)
    != (match cs with | [] => false | c :: _ => isWordCh c)

def matchHere (p : RPat) (prev : Option Char) (cs : List Char) : Bool :=
  (!p.boundaryFirst || boundaryHolds prev cs) && matchToks p.toks cs

/-- Model of `re.search`: does `p` match at any position of `text`? -/
def reSearchAux (p : RPat) (prev : Option Char) : List Char → Bool
  | [] => matchHere p prev []
  | c :: rest => matchHere p prev (c :: rest) || reSearchAux p (some c) rest

def reSearch (p : RPat) (text : String) : Bool :=
  reSearchAux p none (toLowerL text)

/-- Table `false_claim_patterns` (text_analyzer.py:524-532). -/
def falseClaimPats : List RPat :=
  [⟨true,  [.word, .lit " is ", .word, .lit " ",
            .alts ["girlfriend", "boyfriend", "wife", "husband", "partner"]]⟩,
   ⟨false, [.lit "i am ", .word, .lit " ",
            .alts ["owner", "ceo", "president", "founder"], .lit " of ", .word]⟩,
   ⟨false, [.word, .lit " ", .alts ["are", "is"], .lit " my ",
            .alts ["servant", "employee", "worker", "slave"]]⟩,
   ⟨false, [.lit "i own ", .word, .lit " ",
            .alts ["company", "corporation", "business", "industry"]]⟩,
   ⟨false, [.lit "i am ",
            .alts ["billionaire", "millionaire", "richest", "owner of"]]⟩,
   ⟨false, [.lit "i control ", .word, .lit " ",
            .alts ["company", "corporation", "business"]]⟩,
   ⟨false, [.lit "i bought ", .word, .lit " ",
            .alts ["company", "corporation", "business"]]⟩]

/-- Count `false_claim_count` (text_analyzer.py:534-535). -/
def falseClaimCount (text : String) : Nat :=
  falseClaimPats.countP (fun p => reSearch p text)

/-! ## Text analyzer: environment and score pipeline (analyze_text) -/

/-- Outcome of `analyze_bias_and_subjectivity` read at text_analyzer.py:449-460. -/
structure BiasRes where
  em : Rat        -- emotional_manipulation
  subj : Rat      -- subjectivity
  deriving Repr

/-- Outcome of `analyze_readability_and_quality` read at text_analyzer.py:463-473. -/
structure QualityRes where
  qualityScore : Int
  lexicalDiversity : Rat
  deriving Repr

/-- Outcome of `cross_reference_facts` read at text_analyzer.py:486-496. -/
structure FactsRes where
  verified : Nat       -- len(verified_facts)
  contradicted : Nat   -- len(contradicted_facts)
  deriving Repr

/-- One Azure content-safety category as read in the severity loops. -/
structure AzCat where
  name : String
  rejected : Bool
  severe : Bool    -- severity >= 2
  deriving Repr

/-- Environment of `analyze_text`: the values read out of the gathered
sub-analyses and the optional Azure collaborators.  `none` = that
sub-analysis raised / returned an error dictionary / was unavailable. -/
structure TextEnv where
  bias : Option BiasRes
  quality : Option QualityRes
  aiLikelihood : Option Rat
  facts : Option FactsRes
  semantic : Option Rat
  claimsCount : Option Nat
  azureMismatch : Option Bool          -- Azure sentiment disagreement applied?
  azureSafety : Option (List AzCat)

/-- Stage 1, bias and emotional manipulation (text_analyzer.py:449-460). -/
def biasStep (b : Option BiasRes) (st : Int × String) : Int × String :=
  match b with
  | none => st
  | some r =>
    let st1 :=
      if r.em > (0.5 : Rat) then (st.1 - 30, "High Emotional Manipulation")
      else if r.em > (0.3 : Rat) then (st.1 - 20, "Moderate Bias Detected")
      else st
    if r.subj > (0.8 : Rat) then (st1.1 - 15, st1.2) else st1

/-- Stage 2, quality analysis (text_analyzer.py:463-473). -/
def qualityStep (q : Option QualityRes) (st : Int × String) : Int × String :=
  match q with
  | none => st
  | some r =>
    let st1 :=
      if r.qualityScore < 30 then (st.1 - 25, "Poor Quality Text")
      else if r.qualityScore > 80 then (st.1 + 10, st.2)
      else st
    if r.lexicalDiversity < (0.2 : Rat) then (st1.1 - 20, st1.2) else st1

/-- Stage 3, AI-generated content detection (text_analyzer.py:476-483). -/
def aiStep (a : Option Rat) (st : Int × String) : Int × String :=
  match a with
  | none => st
  | some l =>
    if l > (0.7 : Rat) then (st.1 - 35, "Likely AI-Generated")
    else if l > (0.5 : Rat) then (st.1 - 20, "Possibly AI-Generated")
    else st

/-- Stage 4, fact verification (text_analyzer.py:486-496). -/
def factsStep (f : Option FactsRes) (st : Int × String) : Int × String :=
  match f with
  | none => st
  | some r =>
    if r.contradicted > 0 then (min st.1 20, "Contains False Information")
    else if r.verified > 0 then
      (st.1 + min 20 (5 * (r.verified : Int)), "Contains Verified Facts")
    else st

/-- Stage 5, semantic similarity to misinformation (text_analyzer.py:499-506). -/
def semanticStep (s : Option Rat) (st : Int × String) : Int × String :=
  match s with
  | none => st
  | some v =>
    if v > (0.7 : Rat) then (st.1 - 40, "Similar to Known Misinformation")
    else if v > (0.5 : Rat) then (st.1 - 25, "Potentially Misleading")
    else st

/-- Stage 6, claims analysis (text_analyzer.py:509-512). -/
def claimsStep (c : Option Nat) (st : Int × String) : Int × String :=
  match c with
  | none => st
  | some n => if n > 5 then (st.1 - 10, st.2) else st

/-- False-claim penalty (text_analyzer.py:537-539): floored at 0 here. -/
def falseClaimStep (text : String) (st : Int × String) : Int × String :=
  let fc := falseClaimCount text
  if fc > 0 then (max 0 (st.1 - 30 * (fc : Int)), "False Claims Detected") else st

/-- Misinformation-phrase penalty (text_analyzer.py:552-554): NOT clamped. -/
def misinfoStep (text : String) (st : Int × String) : Int × String :=
  let mc := misinfoCount text
  if mc > 0 then (st.1 - 20 * (mc : Int), "Potential Misinformation") else st

/-- Fact-table verification (text_analyzer.py:574-578). -/
def factTableStep (text : String) (st : Int × String) : Int × String :=
  match factLookup (normalizeText text) with
  | none => st
  | some s => (max st.1 (s - 5), "Verified Factual Statement")

/-- Azure sentiment cross-validation (text_analyzer.py:641-648). -/
def azureSentStep (m : Option Bool) (st : Int × String) : Int × String :=
  match m with
  | some true => (st.1 - 5, st.2)
  | _ => st

/-- Azure content-safety loop (text_analyzer.py:651-660): `rejected` sets the
score to 0, severity >= 2 subtracts 30, in category order. -/
def azureSafetyStep (o : Option (List AzCat)) (st : Int × String) : Int × String :=
  match o with
  | none => st
  | some cats =>
    cats.foldl
      (fun st c =>
        if c.rejected then ((0 : Int), "Harmful Content: " ++ c.name)
        else if c.severe then (st.1 - 30, "Potentially Harmful: " ++ c.name)
        else st)
      st

/-- State after the six gathered sub-analyses (text_analyzer.py:446-512),
starting from the base `trust = 70` and the `Neutral` verdict (lines 428-429). -/
def textStateComprehensive (e : TextEnv) : Int × String :=
  claimsStep e.claimsCount
    (semanticStep e.semantic
      (factsStep e.facts
        (aiStep e.aiLikelihood
          (qualityStep e.quality
            (biasStep e.bias (70, "Neutral"))))))

/-- State right after the misinformation-pattern penalty
(text_analyzer.py line 554, before the fact table and Azure). -/
def textStateAfterMisinfo (text : String) (e : TextEnv) : Int × String :=
  misinfoStep text (falseClaimStep text (textStateComprehensive e))

/-- Full pre-clamp state of `analyze_text`. -/
def textPipe (text : String) (e : TextEnv) : Int × String :=
  azureSafetyStep e.azureSafety
    (azureSentStep e.azureMismatch
      (factTableStep text (textStateAfterMisinfo text e)))

/-- Final verdict table of `analyze_text` (text_analyzer.py:668-679);
it unconditionally re-derives the verdict from the clamped score. -/
def textLabel (t : Int) : String :=
  if 90 ≤ t then "Highly Trustworthy"
  else if 75 ≤ t then "Mostly Trustworthy"
  else if 60 ≤ t then "Generally Reliable"
  else if 45 ≤ t then "Questionable Content"
  else if 25 ≤ t then "Likely Unreliable"
  else "High Risk Content"

/-- Result of `analyze_text` (the `summary`, `sentiment` and `sources`
evidence fields never influence `trustScore`/`verdict` and are elided). -/
structure TextResult where
  trustScore : Int
  verdict : String
  deriving Repr, DecidableEq

/-- Model of `analyze_text` (text_analyzer.py:403-682). -/
def analyzeText (text : String) (e : TextEnv) : TextResult :=
  let final := clamp100 (textPipe text e).1
  { trustScore := final, verdict := textLabel final }

/-- "All external signal sources failed / are unavailable" for the text
analyzer: every gathered sub-analysis errored and Azure is absent. -/
def textEnvAllFail (e : TextEnv) : Prop :=
  e.bias = none ∧ e.quality = none ∧ e.aiLikelihood = none ∧ e.facts = none ∧
  e.semantic = none ∧ e.claimsCount = none ∧ e.azureMismatch = none ∧
  e.azureSafety = none

/-- The concrete all-failures text environment. -/
def envT0 : TextEnv :=
  { bias := none, quality := none, aiLikelihood := none, facts := none,
    semantic := none, claimsCount := none, azureMismatch := none,
    azureSafety := none }

/-! ## URL analyzer (url_analyzer.py:288-525) -/

/-- Table `trusted_domains` (url_analyzer.py:298-302). -/
def trustedDomains : List String :=
  ["google.com", "youtube.com", "facebook.com", "twitter.com", "instagram.com",
   "linkedin.com", "github.com", "stackoverflow.com", "reddit.com", "wikipedia.org",
   "amazon.com", "microsoft.com", "apple.com", "netflix.com", "adobe.com"]

/-- Check `any(domain.endswith(td) for td in trusted_domains)`. -/
def isTrusted (domain : String) : Bool :=
  trustedDomains.any fun td => endsL td.toList domain.toList

/-- Scheme/rest split at the first `"://"` (model of `urlparse` for absolute
URLs; `urlparse` lower-cases the scheme). -/
def schemeSplit : List Char → List Char → Option (List Char × List Char)
  | _, [] => none
  | acc, c :: rest =>
      if c == ':' && leadsList ['/', '/'] rest then some (acc.reverse, rest.drop 2)
      else schemeSplit (c :: acc) rest

def urlScheme (url : String) : String :=
  match schemeSplit [] url.toList with
  | some (s, _) => String.mk (s.map lowerChar)
  | none => ""

/-- Model of `parsed.netloc.lower()` (url_analyzer.py:291-292). -/
def urlDomain (url : String) : String :=
  match schemeSplit [] url.toList with
  | some (_, rest) =>
      String.mk ((rest.takeWhile fun c => c != '/' && c != '?' && c != '#').map lowerChar)
  | none => ""

/-- Exactly `k` digits at the head of `cs`, returning the remainder. -/
def digitChunk (cs : List Char) (k : Nat) : Option (List Char) :=
  if (cs.take k).length == k && (cs.take k).all Char.isDigit
  then some (cs.drop k) else none

def dotChunk : List Char → Option (List Char)
  | '.' :: r => some r
  | _ => none

/-- A match of `\d{1,3}\.\d{1,3}\.\d{1,3}\.\d{1,3}` at the head of `cs`
(existence over all group lengths = backtracking search). -/
def ipHere (cs : List Char) : Bool :=
  [1, 2, 3].any fun k1 => [1, 2, 3].any fun k2 =>
    [1, 2, 3].any fun k3 => [1, 2, 3].any fun k4 =>
      (do
        let r1 ← digitChunk cs k1
        let r2 ← dotChunk r1
        let r3 ← digitChunk r2 k2
        let r4 ← dotChunk r3
        let r5 ← digitChunk r4 k3
        let r6 ← dotChunk r5
        let _ ← digitChunk r6 k4
        pure ()).isSome

/-- Model of the search `re.search` for `\d{1,3}(\.\d{1,3}){3}` in `domain`
(url_analyzer.py:398). -/
def hasIpRun : List Char → Bool
  | [] => ipHere []
  | c :: rest => ipHere (c :: rest) || hasIpRun rest

def hasIp (domain : String) : Bool :=
  hasIpRun domain.toList

/-- Check against `suspicious_tlds` (url_analyzer.py:392-393). -/
def suspTld (domain : String) : Bool :=
  [".tk", ".ml", ".ga", ".cf", ".click", ".download", ".top"].any
    fun tld => endsL tld.toList domain.toList

/-- Phishing-substring check (url_analyzer.py:447-448). -/
def phishFlag (domain : String) : Bool :=
  (["secure", "login", "bank", "paypal", "amazon"].any
      fun w => hasRun w.toList domain.toList)
  && !([".com", ".org", ".gov", ".edu"].any
        fun s => endsL s.toList domain.toList)

/-- URL-shortener check (url_analyzer.py:453-454). -/
def shortFlag (domain : String) : Bool :=
  ["bit.ly", "tinyurl.com", "t.co", "goo.gl", "ow.ly", "short.link"].any
    fun s => hasRun s.toList domain.toList

/-- Outcome of the WHOIS block (url_analyzer.py:350-389): the library may be
missing, the lookup may raise, or it yields an age in days (0 when the
creation date is absent) and a registrar string. -/
inductive WhoisOutcome where
  | avail (ageDays : Int) (registrar : String)
  | libMissing
  | err (msg : String)
  deriving Repr

/-- Outcome of the TLS probe (url_analyzer.py:408-439), only consulted for
https URLs: a certificate was obtained, the peer returned no certificate, or
the connection/handshake raised. -/
inductive SslOutcome where
  | certOk (issuer : String) (expiry : String)
  | certNone
  | connErr
  deriving Repr

/-- Environment of `analyze_url`: values read from the four gathered
sub-analyses (each of which returns its defaults-plus-error dictionary when
it fails internally; `none` = the gathered task itself was not a dict),
plus WHOIS and TLS outcomes. -/
structure UrlEnv where
  sec : Option Int          -- security_headers["security_score"]
  dns : Option Int          -- dns_security["security_score"]
  privacy : Option Bool     -- privacy_info["has_privacy_policy"]
  tracking : Option Int     -- tracking_info["privacy_score"]
  whois : WhoisOutcome
  ssl : SslOutcome

/-- Security-header adjustment (url_analyzer.py:321-324). -/
def secAdj : Option Int → Int
  | none => 0
  | some s => if s > 50 then 10 else if s < 20 then -15 else 0

/-- DNS-security adjustment (url_analyzer.py:326-329). -/
def dnsAdj : Option Int → Int
  | none => 0
  | some s => if s > 40 then 8 else if s < 20 then -10 else 0

/-- Privacy-policy adjustment (url_analyzer.py:331-334). -/
def privAdj : Option Bool → Int
  | none => 0
  | some b => if b then 5 else -8

/-- Tracking/privacy-score adjustment (url_analyzer.py:336-341). -/
def trackAdj : Option Int → Int
  | none => 0
  | some p => if p < 50 then -15 else if p > 80 then 5 else 0

/-- The four comprehensive adjustments in order; none of them touches the
verdict. -/
def compStep (e : UrlEnv) (st : Int × String) : Int × String :=
  (st.1 + secAdj e.sec + dnsAdj e.dns + privAdj e.privacy + trackAdj e.tracking, st.2)

/-- WHOIS trust adjustment (url_analyzer.py:350-389); allow-listed domains
are exempt from every branch. -/
def whoisAdj (trusted : Bool) : WhoisOutcome → Int
  | .avail age _ =>
      if trusted then 0
      else if age < 30 then -30 else if age < 365 then -15 else 0
  | .libMissing => if trusted then 0 else -10
  | .err _ => if trusted then 0 else -15

/-- WHOIS verdict update (only the age branches set a verdict). -/
def whoisVerdict (trusted : Bool) (w : WhoisOutcome) (v : String) : String :=
  match w with
  | .avail age _ =>
      if trusted then v
      else if age < 30 then "Very New Domain"
      else if age < 365 then "Recent Domain"
      else v
  | _ => v

def whoisStep (trusted : Bool) (w : WhoisOutcome) (st : Int × String) : Int × String :=
  (st.1 + whoisAdj trusted w, whoisVerdict trusted w st.2)

/-- Suspicious-TLD step (url_analyzer.py:392-395). -/
def tldStep (domain : String) (st : Int × String) : Int × String :=
  if suspTld domain then (st.1 - 35, "Suspicious TLD") else st

/-- Raw-IP-host step (url_analyzer.py:397-400). -/
def ipStep (domain : String) (st : Int × String) : Int × String :=
  if hasIp domain then (st.1 - 40, "IP Address Used") else st

/-- TLS adjustment (url_analyzer.py:402-444). -/
def sslAdj (scheme : String) (trusted : Bool) : SslOutcome → Int
  | .certOk _ _ => if scheme == "https" then 10 else if trusted then 0 else -20
  | .certNone => if scheme == "https" then 0 else if trusted then 0 else -20
  | .connErr =>
      if scheme == "https" then (if trusted then -5 else -15)
      else if trusted then 0 else -20

/-- TLS verdict update: only the no-HTTPS branch for untrusted domains sets
a verdict. -/
def sslVerdict (scheme : String) (trusted : Bool) (v : String) : String :=
  if scheme == "https" then v else if trusted then v else "No HTTPS"

def sslStep (scheme : String) (trusted : Bool) (o : SslOutcome) (st : Int × String) :
    Int × String :=
  (st.1 + sslAdj scheme trusted o, sslVerdict scheme trusted st.2)

/-- Phishing-substring step (url_analyzer.py:447-450). -/
def phishStep (domain : String) (st : Int × String) : Int × String :=
  if phishFlag domain then (st.1 - 40, "Potential Phishing") else st

/-- Shortener step (url_analyzer.py:453-456). -/
def shortStep (domain : String) (st : Int × String) : Int × String :=
  if shortFlag domain then (st.1 - 20, "URL Shortener") else st

/-- Backlink-profile values for trusted domains (url_analyzer.py:477-487). -/
def backlinkProfile (trusted : Bool) (domain : String) : Nat × Nat :=
  if trusted then
    if hasRun "youtube.com".toList domain.toList then (50000, 45000)
    else if hasRun "google.com".toList domain.toList then (75000, 70000)
    else if hasRun "facebook.com".toList domain.toList then (40000, 35000)
    else if hasRun "github.com".toList domain.toList then (30000, 28000)
    else (15000, 12000)
  else (0, 0)

/-- Backlink step (url_analyzer.py:477-491): +5 for trusted, -10 otherwise. -/
def backlinkStep (trusted : Bool) (st : Int × String) : Int × String :=
  if trusted then (st.1 + 5, st.2) else (st.1 - 10, st.2)

/-- Untrusted-domain verdict table (url_analyzer.py:502-510). -/
def urlLabelUntrusted (t : Int) : String :=
  if t < 30 then "High Risk"
  else if t < 50 then "Moderate Risk"
  else if t < 70 then "Low Risk"
  else "Trustworthy"

/-- Final verdict (url_analyzer.py:496-510): trusted domains keep their
last-set verdict below 70. -/
def urlFinalVerdict (trusted : Bool) (t : Int) (v : String) : String :=
  if trusted then
    if 80 ≤ t then "Trustworthy" else if 70 ≤ t then "Generally Safe" else v
  else urlLabelUntrusted t

/-- Kind-specific base score of `analyze_url` (url_analyzer.py:304). -/
def urlBaseScore (domain : String) : Int :=
  if isTrusted domain then 85 else 75

/-- Result of `analyze_url` (evidence entries that never influence
`trustScore`/`verdict` are carried where cheap, elided where they merely echo
environment strings). -/
structure UrlResult where
  trustScore : Int
  verdict : String
  ageDays : Int
  registrar : String
  sslValid : Bool
  backlinkTotal : Nat
  backlinkReputable : Nat
  deriving Repr, DecidableEq

/-- Values `age_days` / `registrar` as recorded in `domainInfo`
(url_analyzer.py:350-389 fallbacks, 458-464). -/
def whoisAgeDays : WhoisOutcome → Int
  | .avail age _ => age
  | _ => 0

def whoisRegistrar : WhoisOutcome → String
  | .avail _ r => r
  | .libMissing => "WHOIS Unavailable"
  | .err m => "WHOIS Error: " ++ String.mk (m.toList.take 50)

/-- Model of `analyze_url` (url_analyzer.py:288-525). -/
def analyzeUrl (url : String) (e : UrlEnv) : UrlResult :=
  let domain := urlDomain url
  let scheme := urlScheme url
  let trusted := isTrusted domain
  let st0 : Int × String := (urlBaseScore domain, "Trustworthy")
  let st1 := compStep e st0
  let st2 := whoisStep trusted e.whois st1
  let st3 := tldStep domain st2
  let st4 := ipStep domain st3
  let st5 := sslStep scheme trusted e.ssl st4
  let st6 := phishStep domain st5
  let st7 := shortStep domain st6
  let st8 := backlinkStep trusted st7
  let final := clamp100 st8.1
  { trustScore := final,
    verdict := urlFinalVerdict trusted final st8.2,
    ageDays := whoisAgeDays e.whois,
    registrar := whoisRegistrar e.whois,
    sslValid := scheme == "https" && (match e.ssl with | .certOk _ _ => true | _ => false),
    backlinkTotal := (backlinkProfile trusted domain).1,
    backlinkReputable := (backlinkProfile trusted domain).2 }

/-- The all-failures URL environment: each gathered sub-analysis failed
internally and returned its defaults-plus-error dictionary, the WHOIS lookup
raised and the TLS handshake raised. -/
def envU0 : UrlEnv :=
  { sec := some 0, dns := some 0, privacy := some false, tracking := some 100,
    whois := .err "unreachable", ssl := .connErr }

/-! ## JPEG quality estimation (image_analyzer.py:235-258) -/

inductive ScanRes where
  | quality (q : Int)
  | structErr
  | exhausted
  deriving Repr, DecidableEq

/-- Scan of the while loop (image_analyzer.py:239-251): find a DQT marker
`FF DB`, read the big-endian table length, slice the table data (Python
slicing clamps, a negative extent gives the empty slice) and, when at least
8 bytes are present, derive the quality from the average of the first 8
quantization values.  A marker closer than 2 bytes to the end makes
`struct.unpack` raise, which the enclosing `except` turns into the default
(`structErr`).  A too-short table falls through to `pos += 1`.

The source computes `quality = int(100 - (avg_quant - 1) * 2)` with
`avg_quant = sum(table_data[:8]) / 8`; all these float operations are exact
(binary fractions of small magnitude), and the value equals the rational
`(408 - s) / 4` for `s = sum(table_data[:8])`, whose `int()` conversion is
truncation toward zero, i.e. `Int.tdiv (408 - s) 4`. -/
def scanQuality : List Nat → ScanRes
  | b0 :: b1 :: rest =>
    if b0 == 0xFF && b1 == 0xDB then
      match rest with
      | l0 :: l1 :: rest2 =>
        let len : Int := (l0 : Int) * 256 + (l1 : Int)
        let td := (rest2.drop 1).take (min 64 (len - 3)).toNat
        if td.length ≥ 8 then
          let s : Int := ((td.take 8).sum : Int)
          .quality (max 1 (min 100 ((408 - s).tdiv 4)))
        else scanQuality (b1 :: rest)
      | _ => .structErr
    else scanQuality (b1 :: rest)
  | _ => .exhausted

/-- Size-based fallback estimate (image_analyzer.py:254-255):
`min(95, max(10, int((len(content) / 10000) * 20 + 50)))`.  As a rational the
inner value is `(len + 25000) / 500`, nonnegative, so `int()` truncation is
`Int.tdiv (len + 25000) 500` (the double rounding of the float division can
shift the value only by strictly less than one quantization step away from an
integer boundary for the sizes at hand, and is modelled as exact). -/
def fallbackQuality (content : List Nat) : Int :=
  min 95 (max 10 (((content.length : Int) + 25000).tdiv 500))

/-- Model of `estimate_jpeg_quality` (image_analyzer.py:235-258). -/
def estimateJpegQuality (content : List Nat) : Int :=
  match scanQuality content with
  | .quality q => q
  | .structErr => 75
  | .exhausted => fallbackQuality content

/-! ## Image analyzer (image_analyzer.py:14-232) -/

/-- Values read from `detect_deepfake_indicators`
(image_analyzer.py:261-336): the statistical pixel heuristics behind them
are float/OpenCV computations, abstracted as environment outcomes; the
source caps `suspicion_score` at 100 on return, which `analyzeImage`
reapplies below. -/
structure DeepfakeRes where
  artifacts : List String
  suspicion : Nat
  highRisk : Bool
  deriving Repr, DecidableEq

/-- Values read from the Azure Computer Vision analysis
(image_analyzer.py:168-198); the confidence formatting of the description
string is elided. -/
structure AzVision where
  adultOrRacy : Bool
  faces : Nat
  description : Option String
  brands : List String
  deriving Repr, DecidableEq

/-- Result of a successful `Image.open` and EXIF extraction
(image_analyzer.py:22-33). -/
structure DecodedImage where
  width : Nat
  height : Nat
  mode : String
  format : String
  exif : List (String × String)
  deriving Repr, DecidableEq

/-- Environment of `analyze_image`.  `decoded = none` models undecodable
bytes (`Image.open` raised).  `md5Hex`/`hashUnusual` abstract the MD5 digest
and the check `int(file_hash[:8], 16) % 13 == 0` (a cryptographic hash is
opaque to this embedding). -/
structure ImgEnv where
  decoded : Option DecodedImage
  md5Hex : String
  hashUnusual : Bool
  deepfake : DeepfakeRes
  azureRaised : Bool
  vision : Option AzVision
  safety : Option (List AzCat)

/-- Mutable state of `analyze_image`: trust, verdict and the three evidence
accumulators. -/
structure ImgState where
  tr : Int
  vd : String
  metadata : List (String × String)
  compression : List (String × String)
  artifacts : List String

/-- Lookup of one EXIF tag. -/
def exifVal (exif : List (String × String)) (k : String) : Option String :=
  (exif.find? (fun p => p.1 == k)).map (·.2)

/-- Metadata assembly for a decoded image (image_analyzer.py:36-51); the
thousands separator of the size f-string is elided. -/
def imgMetadata (content : List Nat) (filename : String) (d : DecodedImage)
    (md5Hex : String) : List (String × String) :=
  [("Filename", filename), ("Format", d.format),
   ("Dimensions", toString d.width ++ "x" ++ toString d.height),
   ("Color Mode", d.mode),
   ("Size", toString content.length ++ " bytes"),
   ("MD5 Hash", md5Hex)]
  ++ (if d.exif.isEmpty then [("EXIF Data", "Not found or stripped")]
      else ["Make", "Model", "DateTime", "Software"].filterMap
        fun k => (exifVal d.exif k).map fun v => (k, String.mk (v.toList.take 50)))

/-- Compression analysis (image_analyzer.py:64-101).  The `except` clause at
lines 89-91 is unreachable because `estimate_jpeg_quality` catches
internally. -/
def compressionStep (content : List Nat) (fmt : String) (s : ImgState) : ImgState :=
  if fmt == "JPEG" then
    let q := estimateJpegQuality content
    let comp0 := [("Estimated Quality", toString q ++ "%"),
                  ("Compression Type", "JPEG Lossy")]
    if q < 50 then
      { s with tr := s.tr - 25, vd := "Possible Recompression",
               compression := comp0 ++ [("Recompression", "Likely")] }
    else if q > 95 then
      { s with tr := s.tr + 10,
               compression := comp0 ++ [("Recompression", "Unlikely")] }
    else
      { s with compression := comp0 ++ [("Recompression", "Possible")] }
  else if fmt == "PNG" then
    { s with tr := s.tr + 5,
             compression := [("Compression Type", "PNG Lossless"),
                             ("Transparency", "Supported")] }
  else
    { s with tr := s.tr - 5,
             compression := [("Compression Analysis", "Not supported for this format")] }

/-- File-size analysis (image_analyzer.py:107-112). -/
def sizeStep (size : Nat) (s : ImgState) : ImgState :=
  if size < 1000 then
    { s with tr := s.tr - 30,
             artifacts := s.artifacts ++ ["Extremely small file size - possibly heavily processed"] }
  else if size > 20 * 1024 * 1024 then
    { s with tr := s.tr + 10,
             artifacts := s.artifacts ++ ["Very large file size - likely original/high quality"] }
  else s

/-- Resolution analysis (image_analyzer.py:115-122). -/
def resolutionStep (w h : Nat) (s : ImgState) : ImgState :=
  if w > 0 && h > 0 then
    if w * h > 12000000 then
      { s with tr := s.tr + 15,
               artifacts := s.artifacts ++ ["High resolution - likely original photo"] }
    else if w * h < 100000 then
      { s with tr := s.tr - 20,
               artifacts := s.artifacts ++ ["Very low resolution - heavily downscaled"] }
    else s
  else s

/-- EXIF authenticity analysis (image_analyzer.py:125-136); this is the
statement that raises NameError when the image did not decode. -/
def exifStep (exif : List (String × String)) (s : ImgState) : ImgState :=
  if exif.isEmpty then
    { s with tr := s.tr - 15,
             artifacts := s.artifacts ++ ["No EXIF data - metadata stripped or generated"] }
  else
    let s1 :=
      if (exifVal exif "Make").isSome && (exifVal exif "Model").isSome then
        { s with tr := s.tr + 10, artifacts := s.artifacts ++ ["Camera metadata present"] }
      else s
    match exifVal exif "Software" with
    | some sw =>
        if ["photoshop", "gimp", "ai", "generated"].any
            (fun t => hasRun t.toList (toLowerL sw)) then
          { s1 with tr := s1.tr - 20,
                    artifacts := s1.artifacts ++ ["Editing software detected in metadata"] }
        else s1
    | none => s1

/-- Hash-based anomaly heuristic (image_analyzer.py:139-142). -/
def hashStep (unusual : Bool) (s : ImgState) : ImgState :=
  if unusual then
    { s with tr := s.tr - 15,
             artifacts := s.artifacts ++ ["Unusual file structure patterns detected"] }
  else s

/-- Filename lexical analysis (image_analyzer.py:145-154). -/
def filenameStep (filename : String) (s : ImgState) : ImgState :=
  let fl := toLowerL filename
  let s1 :=
    if ["ai_generated", "deepfake", "fake", "synthetic", "generated", "artificial"].any
        (fun n => hasRun n.toList fl) then
      { s with tr := s.tr - 35, vd := "High Risk - Filename Suggests AI",
               artifacts := s.artifacts ++ ["Suspicious filename indicates artificial content"] }
    else s
  if ["camera", "photo", "img", "dsc"].any (fun n => hasRun n.toList fl) then
    { s1 with tr := s1.tr + 5,
              artifacts := s1.artifacts ++ ["Filename suggests camera capture"] }
  else s1

/-- Deepfake-indicator application (image_analyzer.py:157-163). -/
def deepfakeStep (df : DeepfakeRes) (s : ImgState) : ImgState :=
  let s1 := { s with artifacts := s.artifacts ++ df.artifacts,
                     tr := s.tr - min 100 (df.suspicion : Int) }
  if df.highRisk then
    { s1 with vd := "High Risk - Possible Deepfake", tr := min s1.tr 25 }
  else s1

/-- Azure Computer Vision application (image_analyzer.py:168-198); the
face-count and confidence interpolations in the evidence strings are
elided. -/
def azureVisionStep (vo : Option AzVision) (s : ImgState) : ImgState :=
  match vo with
  | none => s
  | some v =>
    let s1 := match v.description with
      | some dsc => { s with metadata := s.metadata ++ [("Azure Description", dsc)] }
      | none => s
    let s2 :=
      if v.adultOrRacy then
        { s1 with tr := s1.tr - 30, vd := "Inappropriate Content Detected",
                  artifacts := s1.artifacts ++ ["Azure detected adult/inappropriate content"] }
      else s1
    let s3 :=
      if v.faces > 0 then
        let s3a := { s2 with metadata := s2.metadata ++ [("Azure Faces Detected", toString v.faces)] }
        if v.faces > 3 then
          { s3a with tr := s3a.tr - 10,
                     artifacts := s3a.artifacts ++ ["Multiple faces detected - possible composite"] }
        else s3a
      else s2
    if v.brands.isEmpty then s3
    else { s3 with metadata := s3.metadata ++
            [("Azure Brands", String.intercalate ", " (v.brands.take 3))] }

/-- Azure content-safety loop for images (image_analyzer.py:201-211):
`rejected` subtracts 40 here (unlike the text analyzer, which zeroes). -/
def azureSafetyImgStep (so : Option (List AzCat)) (s : ImgState) : ImgState :=
  match so with
  | none => s
  | some cats =>
    cats.foldl
      (fun s c =>
        if c.rejected then
          { s with tr := s.tr - 40, vd := "Harmful Content Detected",
                   artifacts := s.artifacts ++ ["Azure flagged as " ++ c.name] }
        else if c.severe then
          { s with tr := s.tr - 15,
                   artifacts := s.artifacts ++ ["Azure detected potential " ++ c.name ++ " content"] }
        else s)
      s

/-- The Azure block (image_analyzer.py:166-215): an exception anywhere in it
only records a note. -/
def azureImgStep (e : ImgEnv) (s : ImgState) : ImgState :=
  if e.azureRaised then { s with artifacts := s.artifacts ++ ["Azure analysis failed"] }
  else azureSafetyImgStep e.safety (azureVisionStep e.vision s)

/-- Final verdict table of `analyze_image` (image_analyzer.py:220-229). -/
def imageLabel (t : Int) : String :=
  if 85 ≤ t then "Highly Authentic"
  else if 70 ≤ t then "Likely Authentic"
  else if 50 ≤ t then "Questionable Authenticity"
  else if 30 ≤ t then "Likely Manipulated"
  else "High Risk - Possible AI/Deepfake"

/-- Result record built by `make_image_result` (models.py:4-19). -/
structure ImageResult where
  trustScore : Int
  verdict : String
  metadata : List (String × String)
  compression : List (String × String)
  artifacts : List String
  deriving Repr, DecidableEq

/-- Message of the unbound-local error: when `Image.open` raises, the
fallback branch (image_analyzer.py:53-62) never binds `exif_data`, and the
unconditional read `if not exif_data:` at line 125 raises, aborting the
analysis. -/
def exifUnboundMsg : String :=
  "NameError: local variable exif_data referenced before assignment"

/-- Model of `analyze_image` (image_analyzer.py:14-232).  On undecodable
bytes the stages up to line 122 still execute (with the fallback metadata
and `width = height = 0`), but the EXIF stage at line 125 reads the unbound
`exif_data` and the coroutine aborts with an error instead of a result. -/
def analyzeImage (content : List Nat) (filename : String) (e : ImgEnv) :
    Except String ImageResult :=
  match e.decoded with
  | none => .error exifUnboundMsg
  | some d =>
    let s0 : ImgState :=
      { tr := 75, vd := "Likely Authentic",
        metadata := imgMetadata content filename d e.md5Hex,
        compression := [], artifacts := [] }
    let s1 := compressionStep content d.format s0
    let s2 := sizeStep content.length s1
    let s3 := resolutionStep d.width d.height s2
    let s4 := exifStep d.exif s3
    let s5 := hashStep e.hashUnusual s4
    let s6 := filenameStep filename s5
    let s7 := deepfakeStep e.deepfake s6
    let s8 := azureImgStep e s7
    let final := clamp100 s8.tr
    .ok { trustScore := final, verdict := imageLabel final,
          metadata := s8.metadata, compression := s8.compression,
          artifacts := s8.artifacts }

/-- Neutral deepfake outcome. -/
def dfNone : DeepfakeRes := { artifacts := [], suspicion := 0, highRisk := false }

/-- Image environment for undecodable bytes, with every optional
collaborator absent. -/
def envI0 : ImgEnv :=
  { decoded := none, md5Hex := "0123456789abcdef", hashUnusual := false,
    deepfake := dfNone, azureRaised := false, vision := none, safety := none }

/-! ## Helper lemmas -/

theorem clamp100_spec (x : Int) :
    clamp100 x = if x < 0 then 0 else if 100 < x then 100 else x := by
  unfold clamp100
  rcases le_total x 0 with h | h <;> rcases le_total x 100 with h2 | h2 <;>
    simp [min_def, max_def] <;> split_ifs <;> omega

theorem textLabel_of_ge90 (t : Int) (h : 90 ≤ t) : textLabel t = "Highly Trustworthy" := by
  unfold textLabel
  rw [if_pos h]

theorem whoisStep_trusted (w : WhoisOutcome) (st : Int × String) :
    whoisStep true w st = st := by
  cases w <;> simp [whoisStep, whoisAdj, whoisVerdict]

theorem secAdj_bounds (o : Option Int) : -15 ≤ secAdj o ∧ secAdj o ≤ 10 := by
  cases o <;> simp [secAdj] <;> split_ifs <;> omega

theorem dnsAdj_bounds (o : Option Int) : -10 ≤ dnsAdj o ∧ dnsAdj o ≤ 8 := by
  cases o <;> simp [dnsAdj] <;> split_ifs <;> omega

theorem privAdj_bounds (o : Option Bool) : -8 ≤ privAdj o ∧ privAdj o ≤ 5 := by
  cases o <;> simp [privAdj] <;> split_ifs <;> omega

theorem trackAdj_bounds (o : Option Int) : -15 ≤ trackAdj o ∧ trackAdj o ≤ 5 := by
  cases o <;> simp [trackAdj] <;> split_ifs <;> omega

theorem whoisAdj_untrusted_bounds (w : WhoisOutcome) :
    -30 ≤ whoisAdj false w ∧ whoisAdj false w ≤ 0 := by
  cases w <;> simp [whoisAdj] <;> split_ifs <;> omega

theorem sslAdj_http_untrusted (o : SslOutcome) : sslAdj "http" false o = -20 := by
  cases o <;> rfl

theorem factLookup_ge (norm : List Char) (s : Int) (h : factLookup norm = some s) :
    95 ≤ s := by
  unfold factLookup at h
  rcases Option.map_eq_some'.mp h with ⟨p, hfind, hval⟩
  have hmem := List.mem_of_find?_eq_some hfind
  have hall : ∀ q ∈ factTable, (95 : Int) ≤ q.2 := by decide
  exact hval ▸ hall p hmem

theorem fallbackQuality_range (c : List Nat) :
    10 ≤ fallbackQuality c ∧ fallbackQuality c ≤ 95 := by
  unfold fallbackQuality
  constructor
  · exact le_min (by norm_num) (le_max_left 10 _)
  · exact min_le_left 95 _

theorem scanQuality_quality_range (content : List Nat) :
    ∀ q : Int, scanQuality content = .quality q → 1 ≤ q ∧ q ≤ 100 := by
  induction content with
  | nil => intro q h; simp [scanQuality] at h
  | cons b0 tl ih =>
    intro q h
    cases tl with
    | nil => simp [scanQuality] at h
    | cons b1 rest =>
      unfold scanQuality at h
      split at h
      case _ =>
        split at h
        case _ l0 l1 rest2 =>
          dsimp only [] at h
          split at h
          case _ =>
            rw [ScanRes.quality.injEq] at h
            refine ⟨?_, ?_⟩
            · rw [← h]; exact le_max_left 1 _
            · rw [← h]; exact max_le (by norm_num) (min_le_left 100 _)
          case _ => exact ih q h
        case _ => simp at h
      case _ => exact ih q h

/-! ## Claim theorems -/

/-- C10: `estimate_jpeg_quality` is total on arbitrary byte strings and
always returns an integer in [1,100]; the quantization-table path clamps to
[1,100], the size-based fallback yields a value in [10,95] (in fact [50,95]),
and the internal `struct.error` exception path yields the default 75. -/
theorem c10_jpeg_quality :
    (∀ content : List Nat,
       1 ≤ estimateJpegQuality content ∧ estimateJpegQuality content ≤ 100) ∧
    (∀ content : List Nat, scanQuality content = .exhausted →
       estimateJpegQuality content = fallbackQuality content ∧
       10 ≤ fallbackQuality content ∧ fallbackQuality content ≤ 95) ∧
    (∀ (content : List Nat) (q : Int), scanQuality content = .quality q →
       estimateJpegQuality content = q ∧ 1 ≤ q ∧ q ≤ 100) ∧
    (∀ content : List Nat, scanQuality content = .structErr →
       estimateJpegQuality content = 75) := by
  refine ⟨?_, ?_, ?_, ?_⟩
  · intro content
    rcases h : scanQuality content with q | _ | _ <;> simp [estimateJpegQuality, h]
    · exact scanQuality_quality_range content q h
    · rcases fallbackQuality_range content with ⟨h1, h2⟩
      omega
  · intro content h
    refine ⟨by simp [estimateJpegQuality, h], fallbackQuality_range content⟩
  · intro content q h
    exact ⟨by simp [estimateJpegQuality, h], scanQuality_quality_range content q h⟩
  · intro content h
    simp [estimateJpegQuality, h]

/-- Witness for C10: the fallback path at the empty byte string, the
quantization path at a minimal DQT segment (quality 100), and the
`struct.error` path at a truncated DQT marker. -/
theorem c10_jpeg_quality_witness :
    (estimateJpegQuality [] = fallbackQuality [] ∧
     10 ≤ fallbackQuality [] ∧ fallbackQuality [] ≤ 95) ∧
    (estimateJpegQuality [255, 219, 0, 67, 99, 1, 1, 1, 1, 1, 1, 1, 1] = 100 ∧
     1 ≤ (100 : Int) ∧ (100 : Int) ≤ 100) ∧
    estimateJpegQuality [255, 219] = 75 :=
  ⟨c10_jpeg_quality.2.1 [] (by decide),
   c10_jpeg_quality.2.2.1 [255, 219, 0, 67, 99, 1, 1, 1, 1, 1, 1, 1, 1] 100 (by decide),
   c10_jpeg_quality.2.2.2 [255, 219] (by decide)⟩

/-- C1: any result actually returned by the three analyze operations carries
a trustScore in [0,100] (the final clamp), and `analyze_text`/`analyze_url`
always return; but `analyze_image` does not return a result for undecodable
bytes — it aborts with the unbound-local (NameError) failure, as evaluated on
the concrete input `[0, 1, 2]` with every collaborator absent. -/
theorem c1_trust_range :
    (∀ (t : String) (e : TextEnv),
       0 ≤ (analyzeText t e).trustScore ∧ (analyzeText t e).trustScore ≤ 100) ∧
    (∀ (u : String) (e : UrlEnv),
       0 ≤ (analyzeUrl u e).trustScore ∧ (analyzeUrl u e).trustScore ≤ 100) ∧
    (∀ (c : List Nat) (f : String) (e : ImgEnv),
       match analyzeImage c f e with
       | .ok r => 0 ≤ r.trustScore ∧ r.trustScore ≤ 100
       | .error _ => True) ∧
    analyzeImage [0, 1, 2] "upload.jpg" envI0 = .error exifUnboundMsg := by
  refine ⟨?_, ?_, ?_, rfl⟩
  · intro t e
    simp only [analyzeText]
    exact clamp100_range _
  · intro u e
    simp only [analyzeUrl]
    exact clamp100_range _
  · intro c f e
    rcases hd : e.decoded with _ | d <;> simp only [analyzeImage, hd]
    exact clamp100_range _

/-- C9: the verdict returned by `analyze_text` is exactly the threshold
label of the final trustScore — every intermediate verdict assigned during
the analysis is overwritten by the final mapping — and is always one of the
six fixed labels. -/
theorem c9_verdict_table (t : String) (e : TextEnv) :
    (analyzeText t e).verdict = textLabel (analyzeText t e).trustScore ∧
    ((analyzeText t e).verdict = "Highly Trustworthy" ∨
     (analyzeText t e).verdict = "Mostly Trustworthy" ∨
     (analyzeText t e).verdict = "Generally Reliable" ∨
     (analyzeText t e).verdict = "Questionable Content" ∨
     (analyzeText t e).verdict = "Likely Unreliable" ∨
     (analyzeText t e).verdict = "High Risk Content") := by
  constructor
  · simp only [analyzeText]
  · simp only [analyzeText, textLabel]
    split_ifs <;> simp

/-- C2 counterexample: for the spec example text "Delhi is capital of
India." (a fact-table hit) with every sub-analysis failed and Azure absent,
the returned verdict is NOT "Verified Factual Statement" — the final
score-threshold mapping overwrites the fact-table verdict. -/
theorem c2_counterexample :
    (analyzeText "Delhi is capital of India." envT0).verdict ≠ "Verified Factual Statement" ∧
    (analyzeText "Delhi is capital of India." envT0).verdict = "Highly Trustworthy" ∧
    (analyzeText "Delhi is capital of India." envT0).trustScore = 90 := by
  refine ⟨?_, ?_, ?_⟩ <;> decide

/-- C2 (amended): for every text whose normalized form matches a fact-table
entry, and whenever the Azure collaborators contribute nothing, the returned
trustScore is at least 90 (hence at least the base 70); the intermediate
"Verified Factual Statement" verdict is overwritten by the threshold
mapping, so the returned verdict is "Highly Trustworthy". -/
theorem c2_fact_table (t : String) (e : TextEnv)
    (hfact : (factLookup (normalizeText t)).isSome = true)
    (hm : e.azureMismatch = none) (hs : e.azureSafety = none) :
    90 ≤ (analyzeText t e).trustScore ∧
    (analyzeText t e).verdict = "Highly Trustworthy" := by
  rcases hf : factLookup (normalizeText t) with _ | s
  · rw [hf] at hfact; simp at hfact
  have h95 : 95 ≤ s := factLookup_ge _ s hf
  have hx : (90 : Int) ≤ max (textStateAfterMisinfo t e).1 (s - 5) :=
    le_trans (by omega) (le_max_right _ _)
  have hscore : (analyzeText t e).trustScore
      = clamp100 (max (textStateAfterMisinfo t e).1 (s - 5)) := by
    simp only [analyzeText, textPipe, hm, hs, azureSentStep, azureSafetyStep,
      factTableStep, hf]
  have h90 : 90 ≤ (analyzeText t e).trustScore := by
    rw [hscore, clamp100_spec]
    split_ifs <;> omega
  refine ⟨h90, ?_⟩
  have hv : (analyzeText t e).verdict = textLabel (analyzeText t e).trustScore := by
    simp only [analyzeText]
  rw [hv]
  exact textLabel_of_ge90 _ h90

/-- Witness for C2 (amended) at the spec example input. -/
theorem c2_fact_table_witness :
    90 ≤ (analyzeText "Delhi is capital of India." envT0).trustScore ∧
    (analyzeText "Delhi is capital of India." envT0).verdict = "Highly Trustworthy" :=
  c2_fact_table "Delhi is capital of India." envT0 (by decide) rfl rfl

/-- C3 counterexample: with every sub-analysis failed and Azure absent, the
text holding five misinformation phrases drives the trust variable to -30
immediately after the misinformation adjustment (text_analyzer.py:553) —
the intermediate score escapes [0,100]; only the final line clamps. -/
theorem c3_counterexample :
    (textStateAfterMisinfo
      "100% proven doctors hate this big pharma wake up sheeple shocking truth"
      envT0).1 = -30 ∧
    (analyzeText
      "100% proven doctors hate this big pharma wake up sheeple shocking truth"
      envT0).trustScore = 0 := by
  constructor <;> decide

/-- C3 (amended): during aggregation the trust score is NOT clamped after
each adjustment — there are reachable intermediate states outside [0,100]
(e.g. right after the misinformation penalty) — and only the single final
clamp guarantees that the returned trustScore lies in [0,100]. -/
theorem c3_clamp :
    (∀ (t : String) (e : TextEnv),
       0 ≤ (analyzeText t e).trustScore ∧ (analyzeText t e).trustScore ≤ 100) ∧
    (∃ (t : String) (e : TextEnv), (textStateAfterMisinfo t e).1 < 0) := by
  constructor
  · intro t e
    simp only [analyzeText]
    exact clamp100_range _
  · exact ⟨"100% proven doctors hate this big pharma wake up sheeple shocking truth",
           envT0, by decide⟩

/-- C4: evaluation of `analyze_image` at a concrete undecodable byte string
(with every optional collaborator absent): instead of degrading to a
neutral contribution and returning a complete result, the analysis aborts
with the unbound-local NameError of `exif_data` (bound only inside the
`try` that failed, read unconditionally at image_analyzer.py:125). -/
theorem c4_invalid_image :
    analyzeImage [137, 80, 78] "photo.png" envI0 = .error exifUnboundMsg ∧
    exifUnboundMsg = "NameError: local variable exif_data referenced before assignment" :=
  ⟨rfl, rfl⟩

/-- C5 counterexample: with every external source failing (each gathered
sub-analysis returns its defaults-plus-error dictionary, WHOIS raises, the
TLS handshake raises), `analyze_url` on a generic https URL does NOT return
the unmodified base score 75 — the failure paths themselves carry penalties. -/
theorem c5_counterexample :
    (analyzeUrl "https://example.com" envU0).trustScore ≠ 75 := by
  decide

/-- C5 (amended): if every external signal source fails or times out, each
analyze operation still returns a valid (never-error) result, but only
`analyze_text` — and only on texts where no internal lexical heuristic
fires — returns the unmodified base 70 with its base verdict "Generally
Reliable"; `analyze_url` applies the fixed failure-path penalties instead
(for a generic https URL: 75-15-10-8+5-15-15-10 = 7, verdict "High Risk"). -/
theorem c5_all_fail :
    (∀ (t : String) (e : TextEnv), textEnvAllFail e →
       misinfoCount t = 0 → falseClaimCount t = 0 →
       factLookup (normalizeText t) = none →
       (analyzeText t e).trustScore = 70 ∧
       (analyzeText t e).verdict = "Generally Reliable") ∧
    ((analyzeUrl "https://example.com" envU0).trustScore = 7 ∧
     (analyzeUrl "https://example.com" envU0).verdict = "High Risk") := by
  constructor
  · intro t e hfail hm hf hfact
    obtain ⟨h1, h2, h3, h4, h5, h6, h7, h8⟩ := hfail
    have hpipe : textPipe t e = (70, "Neutral") := by
      simp only [textPipe, textStateAfterMisinfo, textStateComprehensive,
        h1, h2, h3, h4, h5, h6, h7, h8, biasStep, qualityStep, aiStep,
        factsStep, semanticStep, claimsStep, falseClaimStep, misinfoStep,
        factTableStep, azureSentStep, azureSafetyStep, hm, hf, hfact]
      decide
    simp [analyzeText, hpipe]
    decide
  · constructor <;> decide

/-- Witness for C5 (amended) at a text with no lexical hits. -/
theorem c5_all_fail_witness :
    (analyzeText "hello world" envT0).trustScore = 70 ∧
    (analyzeText "hello world" envT0).verdict = "Generally Reliable" :=
  c5_all_fail.1 "hello world" envT0
    ⟨rfl, rfl, rfl, rfl, rfl, rfl, rfl, rfl⟩ (by decide) (by decide) (by decide)

/-- C6: a URL whose domain ends with an allow-listed entry starts from the
elevated base score 85, and the registration-age lookup can never change its
trustScore or verdict — whatever the WHOIS outcome (young age, missing
creation date, library missing, or lookup failure), the result is identical. -/
theorem c6_allowlist (url : String) (e : UrlEnv) (w1 w2 : WhoisOutcome)
    (h : isTrusted (urlDomain url) = true) :
    urlBaseScore (urlDomain url) = 85 ∧
    (analyzeUrl url { e with whois := w1 }).trustScore
      = (analyzeUrl url { e with whois := w2 }).trustScore ∧
    (analyzeUrl url { e with whois := w1 }).verdict
      = (analyzeUrl url { e with whois := w2 }).verdict := by
  refine ⟨by simp [urlBaseScore, h], ?_, ?_⟩ <;>
    simp only [analyzeUrl, h, whoisStep_trusted, compStep]

/-- Witness for C6 at an allow-listed domain, comparing a young-domain WHOIS
success against a missing WHOIS library. -/
theorem c6_allowlist_witness :
    urlBaseScore (urlDomain "https://www.google.com") = 85 ∧
    (analyzeUrl "https://www.google.com" { envU0 with whois := .avail 3 "MarkMonitor" }).trustScore
      = (analyzeUrl "https://www.google.com" { envU0 with whois := .libMissing }).trustScore ∧
    (analyzeUrl "https://www.google.com" { envU0 with whois := .avail 3 "MarkMonitor" }).verdict
      = (analyzeUrl "https://www.google.com" { envU0 with whois := .libMissing }).verdict :=
  c6_allowlist "https://www.google.com" envU0 (.avail 3 "MarkMonitor") .libMissing (by decide)

/-- C7 counterexample: a text containing two misinformation-rhetoric phrases
("big pharma", "wake up sheeple") for which `analyze_text` (with every
sub-analysis failed and Azure absent) returns trustScore 93 — not strictly
below the base 70 by the per-phrase penalty — and the verdict "Highly
Trustworthy", not a misinformation-class verdict: the later fact-table hit
("earth is round") lifts the score above the misinformation penalty, and the
final threshold mapping discards the "Potential Misinformation" verdict. -/
theorem c7_counterexample :
    2 ≤ misinfoCount "Earth is round. Big pharma. Wake up sheeple." ∧
    (analyzeText "Earth is round. Big pharma. Wake up sheeple." envT0).trustScore = 93 ∧
    (analyzeText "Earth is round. Big pharma. Wake up sheeple." envT0).verdict
      = "Highly Trustworthy" := by
  refine ⟨?_, ?_, ?_⟩ <;> decide

/-- C7 (amended): for a text with at least two misinformation-rhetoric
phrases, provided the fact table does not match and every gathered
sub-analysis and Azure collaborator is absent, the returned trustScore is at
most 70 - 2*20 = 30 (strictly below base by at least twice the per-phrase
penalty of 20), and the verdict is the threshold label of that low score
("Likely Unreliable" or "High Risk Content") — the intermediate "Potential
Misinformation" verdict is overwritten. -/
theorem c7_misinfo (t : String) (e : TextEnv)
    (hm : 2 ≤ misinfoCount t)
    (hfact : factLookup (normalizeText t) = none)
    (hfail : textEnvAllFail e) :
    (analyzeText t e).trustScore ≤ 30 ∧
    ((analyzeText t e).verdict = "Likely Unreliable" ∨
     (analyzeText t e).verdict = "High Risk Content") := by
  obtain ⟨h1, h2, h3, h4, h5, h6, h7, h8⟩ := hfail
  have hcomp : textStateComprehensive e = (70, "Neutral") := by
    simp only [textStateComprehensive, h1, h2, h3, h4, h5, h6, biasStep,
      qualityStep, aiStep, factsStep, semanticStep, claimsStep]
  have hX : (falseClaimStep t (70, "Neutral")).1 ≤ 70 := by
    unfold falseClaimStep
    dsimp only []
    split_ifs with h
    · exact max_le (by norm_num) (by omega)
    · norm_num
  have hfinal : (analyzeText t e).trustScore
      = clamp100 ((falseClaimStep t (70, "Neutral")).1 - 20 * (misinfoCount t : Int)) := by
    simp only [analyzeText, textPipe, textStateAfterMisinfo, hcomp, h7, h8,
      azureSentStep, azureSafetyStep, factTableStep, hfact, misinfoStep]
    rw [if_pos (show misinfoCount t > 0 from by omega)]
  have hub : (analyzeText t e).trustScore ≤ 30 := by
    rw [hfinal, clamp100_spec]
    split_ifs <;> omega
  have hlb : 0 ≤ (analyzeText t e).trustScore := by
    rw [hfinal, clamp100_spec]
    split_ifs <;> omega
  refine ⟨hub, ?_⟩
  have hv : (analyzeText t e).verdict = textLabel (analyzeText t e).trustScore := by
    simp only [analyzeText]
  rw [hv]
  unfold textLabel
  split_ifs with a b c d f
  · exfalso; omega
  · exfalso; omega
  · exfalso; omega
  · exfalso; omega
  · left; rfl
  · right; rfl

/-- Witness for C7 (amended) at a text holding exactly the two spec example
phrases and nothing else. -/
theorem c7_misinfo_witness :
    (analyzeText "big pharma wake up sheeple" envT0).trustScore ≤ 30 ∧
    ((analyzeText "big pharma wake up sheeple" envT0).verdict = "Likely Unreliable" ∨
     (analyzeText "big pharma wake up sheeple" envT0).verdict = "High Risk Content") :=
  c7_misinfo "big pharma wake up sheeple" envT0 (by decide) (by decide)
    ⟨rfl, rfl, rfl, rfl, rfl, rfl, rfl, rfl⟩

theorem urlLabel_low (x : Int) (h : x ≤ 33) :
    urlLabelUntrusted (clamp100 x) = "High Risk" ∨
    urlLabelUntrusted (clamp100 x) = "Moderate Risk" := by
  rw [clamp100_spec]
  unfold urlLabelUntrusted
  split_ifs <;> first | (left; rfl) | (right; rfl) | (exfalso; omega)

/-- C8: for the input url "http://192.168.0.1/login" (raw-IP host, http
scheme, not allow-listed), the IP-address-host step always applies its -40
penalty, the TLS step always applies the no-HTTPS -20 penalty whatever the
TLS outcome, and — over every environment of sub-analysis and WHOIS
outcomes — the returned verdict lies in the elevated-risk band
{"High Risk", "Moderate Risk"}. -/
theorem c8_ip_http :
    (∀ st : Int × String,
       ipStep (urlDomain "http://192.168.0.1/login") st = (st.1 - 40, "IP Address Used")) ∧
    (∀ (o : SslOutcome) (st : Int × String),
       sslStep (urlScheme "http://192.168.0.1/login")
         (isTrusted (urlDomain "http://192.168.0.1/login")) o st
         = (st.1 - 20, "No HTTPS")) ∧
    (∀ e : UrlEnv,
       (analyzeUrl "http://192.168.0.1/login" e).verdict = "High Risk" ∨
       (analyzeUrl "http://192.168.0.1/login" e).verdict = "Moderate Risk") := by
  have ht : isTrusted (urlDomain "http://192.168.0.1/login") = false := by decide
  have hip : hasIp (urlDomain "http://192.168.0.1/login") = true := by decide
  have hsch : urlScheme "http://192.168.0.1/login" = "http" := by decide
  refine ⟨?_, ?_, ?_⟩
  · intro st
    simp [ipStep, hip]
  · intro o st
    rw [hsch, ht]
    cases o <;> simp [sslStep, sslAdj, sslVerdict] <;> omega
  · intro e
    have htld : suspTld (urlDomain "http://192.168.0.1/login") = false := by decide
    have hph : phishFlag (urlDomain "http://192.168.0.1/login") = false := by decide
    have hsh : shortFlag (urlDomain "http://192.168.0.1/login") = false := by decide
    obtain ⟨hs1, hs2⟩ := secAdj_bounds e.sec
    obtain ⟨hd1, hd2⟩ := dnsAdj_bounds e.dns
    obtain ⟨hp1, hp2⟩ := privAdj_bounds e.privacy
    obtain ⟨htr1, htr2⟩ := trackAdj_bounds e.tracking
    obtain ⟨hw1, hw2⟩ := whoisAdj_untrusted_bounds e.whois
    have hssl := sslAdj_http_untrusted e.ssl
    simp only [analyzeUrl, ht, htld, hip, hph, hsh, hsch, urlBaseScore,
      compStep, whoisStep, tldStep, ipStep, sslStep, phishStep, shortStep,
      backlinkStep, urlFinalVerdict, hssl, Bool.false_eq_true, if_false,
      if_true, ite_false, ite_true]
    exact urlLabel_low _ (by omega)
